import Mathlib

/-!
Shallow embedding of `@eldrin-project/eldrin-app-react`.

The repository has two variants of the app factory:
* the delegating variant in `src/createApp.ts` (`createApp`,
  `combineLifecycles`, `runLifecycleFn`), whose bootstrap records the
  migration outcome in shared state and never rethrows, and
* the DOM-rendering variant (unnamed source file), whose bootstrap rethrows
  the normalized migration error, and whose mount/unmount render into the DOM.

User callbacks (`onMigrationsComplete`, `onMigrationError`) and console output
are modelled as events appended to a trace; the callbacks themselves are
assumed not to throw.  The external migration collaborator `runMigrations`
is modelled by an oracle value (`MigBehavior`) describing how its promise
settles for this invocation.  A JavaScript async function is modelled as a
pure function from a state to (state, trace, optional rejection error).
-/

namespace EldrinReact

/-- Opaque handle to a D1 database, owned by the host shell. -/
structure D1Database where
  id : Nat
  deriving DecidableEq, Repr

/-- Migration file definition: name plus SQL text (`MigrationFile` in core). -/
structure MigrationFile where
  name : String
  content : String
  deriving DecidableEq, Repr

/-- Error info carried inside a migration result: `{ message }`. -/
structure MigErrorInfo where
  message : String
  deriving DecidableEq, Repr

/-- Result record produced by the migration collaborator:
`{ success: boolean, executed: count, error?: { message } }`. -/
structure MigrationResult where
  success : Bool
  executed : Nat
  error : Option MigErrorInfo
  deriving DecidableEq, Repr

/-- A JavaScript `Error` value, reduced to its message. -/
structure JsError where
  message : String
  deriving DecidableEq, Repr

/-- A value a promise can reject with: either an `Error` instance or some
other value together with its string representation `String(value)`. -/
inductive RejectReason where
  | errorInstance (message : String)
  | nonError (stringRep : String)
  deriving DecidableEq, Repr

/-- Normalization `error instanceof Error ? error : new Error(String(error))`,
reduced to the resulting message. -/
def RejectReason.normalize : RejectReason → String
  | .errorInstance m => m
  | .nonError s => s

/-- Behavior of the external `runMigrations` collaborator for one invocation:
its promise either resolves with a result record or rejects. -/
inductive MigBehavior where
  | resolves (result : MigrationResult)
  | rejects (reason : RejectReason)
  deriving DecidableEq, Repr

/-- Observable events: user-callback invocations, console output, and the
DOM-side effects of unmount. -/
inductive Event where
  | callMigrationsComplete (result : MigrationResult)
  | callMigrationError (message : String)
  | consoleWarn
  | consoleError
  | reactRootUnmount
  | clearInnerHTML
  | probe (n : Nat)
  deriving DecidableEq, Repr

/-- Number of failure-callback (`onMigrationError`) invocations in a trace. -/
def errorCallCount (t : List Event) : Nat :=
  t.countP fun e => match e with
    | .callMigrationError _ => true
    | _ => false

/-- Number of success-callback (`onMigrationsComplete`) invocations. -/
def completeCallCount (t : List Event) : Nat :=
  t.countP fun e => match e with
    | .callMigrationsComplete _ => true
    | _ => false

/-- Options accepted by both `createApp` factories; the two optional
callbacks are modelled by presence flags (events are emitted only when the
corresponding callback was supplied, mirroring `onMigrationError?.(e)`). -/
structure CreateAppOptions where
  name : String
  migrations : List MigrationFile
  hasOnMigrationsComplete : Bool
  hasOnMigrationError : Bool
  deriving DecidableEq, Repr

end EldrinReact

namespace EldrinReact.Combined

/-!  Delegating variant: `src/createApp.ts` together with the module-level
shared context of `src/context.tsx`.  -/

/-- Lifecycle props passed by the host (`LifecycleProps` in `types.ts`);
only the optional database handle matters to the embedded logic. -/
structure LifecycleProps where
  db : Option D1Database
  deriving DecidableEq, Repr

/-- Closure state created by `createApp` (`AppState` in `types.ts`). -/
structure AppState where
  db : Option D1Database
  migrationsComplete : Bool
  migrationResult : Option MigrationResult
  deriving DecidableEq, Repr

/-- Module-level shared context of `context.tsx` (`DatabaseContext`). -/
structure DatabaseContext where
  db : Option D1Database
  migrationsComplete : Bool
  migrationResult : Option MigrationResult
  deriving DecidableEq, Repr

/-- Initial `AppState` built by `createApp`:
`{ db: null, migrationsComplete: false, migrationResult: null }`. -/
def initialState : AppState :=
  { db := none, migrationsComplete := false, migrationResult := none }

/-- Initial module-level `_databaseContext` of `context.tsx`. -/
def initialContext : DatabaseContext :=
  { db := none, migrationsComplete := false, migrationResult := none }

/-- Result of running the delegating bootstrap: updated closure state,
updated shared context, trace of events, and the optional rejection. -/
structure BootstrapRun where
  state : AppState
  ctx : DatabaseContext
  trace : List Event
  err : Option JsError
  deriving DecidableEq, Repr

/-- Delegating `bootstrap(props)` from `src/createApp.ts`, with the
collaborator's behavior `beh` given as an oracle.  Every branch ends with
`err := none`: the `catch` swallows the rejection after routing it to the
failure callback. -/
def bootstrap (opts : CreateAppOptions) (props : LifecycleProps)
    (beh : MigBehavior) (st : AppState) : BootstrapRun :=
  match props.db with
  | none =>
      { state := { st with migrationsComplete := true }
        ctx := { db := none, migrationsComplete := true, migrationResult := none }
        trace := [Event.consoleWarn]
        err := none }
  | some db =>
      let st := { st with db := some db }
      if opts.migrations.length > 0 then
        match beh with
        | .resolves result =>
            let st := { st with migrationResult := some result,
                                migrationsComplete := result.success }
            let ctx : DatabaseContext :=
              { db := some db, migrationsComplete := result.success,
                migrationResult := some result }
            let trace :=
              if result.success then
                if opts.hasOnMigrationsComplete then
                  [Event.callMigrationsComplete result]
                else []
              else
                match result.error with
                | some e =>
                    if opts.hasOnMigrationError then
                      [Event.callMigrationError e.message]
                    else []
                | none => []
            { state := st, ctx := ctx, trace := trace, err := none }
        | .rejects reason =>
            let st := { st with migrationsComplete := false }
            let ctx : DatabaseContext :=
              { db := some db, migrationsComplete := false,
                migrationResult := none }
            let trace := Event.consoleError ::
              (if opts.hasOnMigrationError then
                  [Event.callMigrationError reason.normalize]
                else [])
            { state := st, ctx := ctx, trace := trace, err := none }
      else
        { state := { st with migrationsComplete := true }
          ctx := { db := some db, migrationsComplete := true,
                   migrationResult := none }
          trace := []
          err := none }

/-- Default `mount` of the delegating variant: warns and resolves. -/
def mountStub (st : AppState) : AppState × List Event × Option JsError :=
  (st, [Event.consoleWarn], none)

/-- Default `unmount` of the delegating variant: warns and resolves. -/
def unmountStub (st : AppState) : AppState × List Event × Option JsError :=
  (st, [Event.consoleWarn], none)

end EldrinReact.Combined

namespace EldrinReact.Dom

/-!  DOM-rendering variant of the factory (unnamed source file). -/

/-- Lifecycle props of the DOM variant; `domElement` is reduced to a flag
used by mount (not needed for the embedded claims). -/
structure LifecycleProps where
  db : Option D1Database
  deriving DecidableEq, Repr

/-- Closure state of the DOM variant (`AppState` interface there):
`reactRoot` models whether a React root is currently held, `mountedElement`
whether a DOM element reference is held. -/
structure AppState where
  db : Option D1Database
  migrationsComplete : Bool
  migrationResult : Option MigrationResult
  mountedElement : Bool
  reactRoot : Bool
  deriving DecidableEq, Repr

/-- Initial state built by the DOM-variant `createApp`. -/
def initialState : AppState :=
  { db := none, migrationsComplete := false, migrationResult := none,
    mountedElement := false, reactRoot := false }

/-- DOM-variant `bootstrap(props)`.  On a reported failure it builds
`Error(result.error?.message ?? 'Migration failed')`, invokes the failure
callback and throws; that throw is caught by the same `try`'s `catch`,
which marks state incomplete, invokes the failure callback a second time,
and rethrows.  On a rejection of the collaborator only the `catch` runs. -/
def bootstrap (opts : CreateAppOptions) (props : LifecycleProps)
    (beh : MigBehavior) (st : AppState) :
    AppState × List Event × Option JsError :=
  let db := props.db
  let st := { st with db := db }
  if db.isSome ∧ opts.migrations.length > 0 then
    match beh with
    | .resolves result =>
        let st := { st with migrationResult := some result }
        if result.success then
          let st := { st with migrationsComplete := true }
          let trace :=
            if opts.hasOnMigrationsComplete then
              [Event.callMigrationsComplete result]
            else []
          (st, trace, none)
        else
          let msg := (result.error.map (·.message)).getD "Migration failed"
          let inner :=
            if opts.hasOnMigrationError then
              [Event.callMigrationError msg]
            else []
          let st := { st with migrationsComplete := false }
          let outer :=
            if opts.hasOnMigrationError then
              [Event.callMigrationError msg]
            else []
          (st, inner ++ outer, some ⟨msg⟩)
    | .rejects reason =>
        let st := { st with migrationsComplete := false }
        let msg := reason.normalize
        let trace :=
          if opts.hasOnMigrationError then
            [Event.callMigrationError msg]
          else []
        (st, trace, some ⟨msg⟩)
  else
    ({ st with migrationsComplete := true }, [], none)

/-- DOM-variant `unmount(_props)`: unmounts the React root if one is held,
clears the mounted element's contents if one is held; never throws. -/
def unmount (st : AppState) : AppState × List Event × Option JsError :=
  let (st, t1) :=
    if st.reactRoot then
      ({ st with reactRoot := false }, [Event.reactRootUnmount])
    else (st, [])
  let (st, t2) :=
    if st.mountedElement then
      ({ st with mountedElement := false }, [Event.clearInnerHTML])
    else (st, [])
  (st, t1 ++ t2, none)

end EldrinReact.Dom

namespace EldrinReact.Hooks

/-!  Context accessor layer of `src/context.tsx`.  `useContext` returns the
provider's value, or the context default `null` when no provider encloses
the caller; that optionality is the `Option` argument below. -/

open EldrinReact.Combined (DatabaseContext)

/-- Hook `useDatabase()`: throws a usage error outside a provider scope,
otherwise returns the context's database handle. -/
def useDatabase (context : Option DatabaseContext) :
    Except JsError (Option D1Database) :=
  match context with
  | none => .error ⟨"useDatabase must be used within a DatabaseProvider"⟩
  | some ctx => .ok ctx.db

/-- Hook `useDatabaseContext()`: throws the analogous usage error outside a
provider scope, otherwise returns the whole context record. -/
def useDatabaseContext (context : Option DatabaseContext) :
    Except JsError DatabaseContext :=
  match context with
  | none => .error ⟨"useDatabaseContext must be used within a DatabaseProvider"⟩
  | some ctx => .ok ctx

/-- Hook `useMigrationsComplete()`: `context?.migrationsComplete ?? false`. -/
def useMigrationsComplete (context : Option DatabaseContext) : Bool :=
  (context.map (·.migrationsComplete)).getD false

end EldrinReact.Hooks

namespace EldrinReact.Lifecycle

/-!  Generic lifecycle machinery of `src/createApp.ts`: `runLifecycleFn`
and `combineLifecycles`.  An async lifecycle function over ambient state `σ`
is a function `σ → σ × trace × optional rejection`. -/

/-- Semantic domain of one async lifecycle function. -/
def FnSem (σ : Type) : Type := σ → σ × List Event × Option JsError

/-- A lifecycle phase as stored on a lifecycle object: either a single
function or an ordered list of functions (host-runtime convention). -/
inductive FnSpec (σ : Type) where
  | single (f : FnSem σ)
  | list (fs : List (FnSem σ))

/-- Sequential execution of a list of lifecycle functions: each is awaited
to completion before the next starts; a rejection stops the loop and
propagates. -/
def runFns {σ : Type} (fs : List (FnSem σ)) (s : σ) :
    σ × List Event × Option JsError :=
  match fs with
  | [] => (s, [], none)
  | f :: rest =>
      match f s with
      | (s1, t1, some e) => (s1, t1, some e)
      | (s1, t1, none) =>
          let (s2, t2, e2) := runFns rest s1
          (s2, t1 ++ t2, e2)

/-- Helper `runLifecycleFn` from `src/createApp.ts`: handles both a single
function and an array of functions. -/
def runLifecycleFn {σ : Type} (fn : FnSpec σ) (s : σ) :
    σ × List Event × Option JsError :=
  match fn with
  | .single f => f s
  | .list fs => runFns fs s

/-- A single-spa compatible lifecycle object (`AppLifecycle` in
`types.ts`): each phase is a function or a list of functions. -/
structure AppLifecycle (σ : Type) where
  bootstrap : FnSpec σ
  mount : FnSpec σ
  unmount : FnSpec σ

/-- Bootstrap of the combined lifecycle: run the app lifecycle's bootstrap
first; if it resolves, run the view lifecycle's bootstrap; a rejection of
the first propagates and the second never runs. -/
def combinedBootstrap {σ : Type} (a b : AppLifecycle σ) : FnSem σ :=
  fun s =>
    match runLifecycleFn a.bootstrap s with
    | (s1, t1, some e) => (s1, t1, some e)
    | (s1, t1, none) =>
        let (s2, t2, e2) := runLifecycleFn b.bootstrap s1
        (s2, t1 ++ t2, e2)

/-- Helper `combineLifecycles(eldrinLifecycle, reactLifecycle)` from
`src/createApp.ts`. -/
def combineLifecycles {σ : Type} (a b : AppLifecycle σ) : AppLifecycle σ :=
  { bootstrap := .single (combinedBootstrap a b)
    mount := .single (fun s => runLifecycleFn b.mount s)
    unmount := .single (fun s => runLifecycleFn b.unmount s) }

end EldrinReact.Lifecycle

namespace EldrinReact

open EldrinReact.Combined EldrinReact.Dom EldrinReact.Hooks EldrinReact.Lifecycle

/-- C9: in the delegating variant, bootstrap always resolves and never
rejects, for every props value, every collaborator behavior and every
starting state (callbacks are modelled as non-throwing events); migration
failure is only recorded in state and routed to the failure callback. -/
theorem combined_bootstrap_never_rejects
    (opts : CreateAppOptions) (props : Combined.LifecycleProps)
    (beh : MigBehavior) (st : Combined.AppState) :
    (Combined.bootstrap opts props beh st).err = none := by
  rcases props with ⟨db⟩
  cases db with
  | none => rfl
  | some d =>
      cases beh with
      | resolves r =>
          by_cases hm : opts.migrations.length > 0 <;>
            simp [Combined.bootstrap, hm]
      | rejects reason =>
          by_cases hm : opts.migrations.length > 0 <;>
            simp [Combined.bootstrap, hm]

/-- C6: the strict database accessor invoked with no enclosing provider
scope throws a usage error, while the lenient migrations-complete accessor
invoked with no enclosing provider scope returns `false` without throwing. -/
theorem hooks_outside_provider_scope :
    Hooks.useDatabase none =
      Except.error ⟨"useDatabase must be used within a DatabaseProvider"⟩ ∧
    Hooks.useMigrationsComplete none = false := by
  exact ⟨rfl, rfl⟩

/-- C4: in both variants, when the collaborator resolves with a successful
result, the success callback is invoked exactly once with exactly that
result record, and afterwards the migrations-complete flag is true. -/
theorem bootstrap_success_callback_once
    (opts : CreateAppOptions) (db : D1Database) (r : MigrationResult)
    (stC : Combined.AppState) (stD : Dom.AppState)
    (hm : opts.migrations.length > 0)
    (hcb : opts.hasOnMigrationsComplete = true)
    (hs : r.success = true) :
    ((Combined.bootstrap opts ⟨some db⟩ (.resolves r) stC).trace =
        [Event.callMigrationsComplete r] ∧
      completeCallCount (Combined.bootstrap opts ⟨some db⟩ (.resolves r) stC).trace = 1 ∧
      (Combined.bootstrap opts ⟨some db⟩ (.resolves r) stC).state.migrationsComplete = true ∧
      (Combined.bootstrap opts ⟨some db⟩ (.resolves r) stC).ctx.migrationsComplete = true) ∧
    ((Dom.bootstrap opts ⟨some db⟩ (.resolves r) stD).2.1 =
        [Event.callMigrationsComplete r] ∧
      completeCallCount (Dom.bootstrap opts ⟨some db⟩ (.resolves r) stD).2.1 = 1 ∧
      (Dom.bootstrap opts ⟨some db⟩ (.resolves r) stD).1.migrationsComplete = true) := by
  simp [Combined.bootstrap, Dom.bootstrap, completeCallCount, hm, hcb, hs]

/-- C4 witness: concrete successful run through both variants. -/
theorem bootstrap_success_callback_once_witness :
    ((Combined.bootstrap ⟨"app", [⟨"001.sql", "CREATE TABLE t (x);"⟩], true, true⟩
        ⟨some ⟨7⟩⟩ (.resolves ⟨true, 1, none⟩) Combined.initialState).trace =
      [Event.callMigrationsComplete ⟨true, 1, none⟩] ∧
     completeCallCount (Combined.bootstrap ⟨"app", [⟨"001.sql", "CREATE TABLE t (x);"⟩], true, true⟩
        ⟨some ⟨7⟩⟩ (.resolves ⟨true, 1, none⟩) Combined.initialState).trace = 1 ∧
     (Combined.bootstrap ⟨"app", [⟨"001.sql", "CREATE TABLE t (x);"⟩], true, true⟩
        ⟨some ⟨7⟩⟩ (.resolves ⟨true, 1, none⟩) Combined.initialState).state.migrationsComplete = true ∧
     (Combined.bootstrap ⟨"app", [⟨"001.sql", "CREATE TABLE t (x);"⟩], true, true⟩
        ⟨some ⟨7⟩⟩ (.resolves ⟨true, 1, none⟩) Combined.initialState).ctx.migrationsComplete = true) ∧
    ((Dom.bootstrap ⟨"app", [⟨"001.sql", "CREATE TABLE t (x);"⟩], true, true⟩
        ⟨some ⟨7⟩⟩ (.resolves ⟨true, 1, none⟩) Dom.initialState).2.1 =
      [Event.callMigrationsComplete ⟨true, 1, none⟩] ∧
     completeCallCount (Dom.bootstrap ⟨"app", [⟨"001.sql", "CREATE TABLE t (x);"⟩], true, true⟩
        ⟨some ⟨7⟩⟩ (.resolves ⟨true, 1, none⟩) Dom.initialState).2.1 = 1 ∧
     (Dom.bootstrap ⟨"app", [⟨"001.sql", "CREATE TABLE t (x);"⟩], true, true⟩
        ⟨some ⟨7⟩⟩ (.resolves ⟨true, 1, none⟩) Dom.initialState).1.migrationsComplete = true) :=
  bootstrap_success_callback_once _ _ _ _ _ (by decide) (by decide) (by decide)

/-- C5: a bootstrap invocation whose props carry no database handle marks
migrations complete and leaves the stored handle at the no-database
sentinel, regardless of the supplied migrations list, and is not an error.
The delegating variant is run from the factory-initial state (the host
invokes bootstrap once per app instance). -/
theorem bootstrap_no_database
    (opts : CreateAppOptions) (beh : MigBehavior) (stD : Dom.AppState) :
    ((Combined.bootstrap opts ⟨none⟩ beh Combined.initialState).state.db = none ∧
      (Combined.bootstrap opts ⟨none⟩ beh Combined.initialState).state.migrationsComplete = true ∧
      (Combined.bootstrap opts ⟨none⟩ beh Combined.initialState).ctx.db = none ∧
      (Combined.bootstrap opts ⟨none⟩ beh Combined.initialState).ctx.migrationsComplete = true ∧
      (Combined.bootstrap opts ⟨none⟩ beh Combined.initialState).err = none) ∧
    ((Dom.bootstrap opts ⟨none⟩ beh stD).1.db = none ∧
      (Dom.bootstrap opts ⟨none⟩ beh stD).1.migrationsComplete = true ∧
      (Dom.bootstrap opts ⟨none⟩ beh stD).2.2 = none) := by
  simp [Combined.bootstrap, Dom.bootstrap, Combined.initialState]

/-- C10: in the delegating variant, a result `{success: false}` with no
error field invokes neither callback, while the result record is still
stored (in state and shared context) and migrations-complete becomes
false; bootstrap still resolves. -/
theorem bootstrap_failure_without_error_field
    (opts : CreateAppOptions) (db : D1Database) (n : Nat)
    (stC : Combined.AppState) (hm : opts.migrations.length > 0) :
    (Combined.bootstrap opts ⟨some db⟩ (.resolves ⟨false, n, none⟩) stC).trace = [] ∧
    (Combined.bootstrap opts ⟨some db⟩ (.resolves ⟨false, n, none⟩) stC).state.migrationResult =
      some ⟨false, n, none⟩ ∧
    (Combined.bootstrap opts ⟨some db⟩ (.resolves ⟨false, n, none⟩) stC).state.migrationsComplete = false ∧
    (Combined.bootstrap opts ⟨some db⟩ (.resolves ⟨false, n, none⟩) stC).ctx.migrationResult =
      some ⟨false, n, none⟩ ∧
    (Combined.bootstrap opts ⟨some db⟩ (.resolves ⟨false, n, none⟩) stC).ctx.migrationsComplete = false ∧
    (Combined.bootstrap opts ⟨some db⟩ (.resolves ⟨false, n, none⟩) stC).err = none := by
  simp [Combined.bootstrap, hm]

/-- C10 witness: concrete run with a `{success: false}` result lacking the
error field. -/
theorem bootstrap_failure_without_error_field_witness :
    (Combined.bootstrap ⟨"app", [⟨"001.sql", "CREATE TABLE t (x);"⟩], true, true⟩
        ⟨some ⟨7⟩⟩ (.resolves ⟨false, 0, none⟩) Combined.initialState).trace = [] ∧
    (Combined.bootstrap ⟨"app", [⟨"001.sql", "CREATE TABLE t (x);"⟩], true, true⟩
        ⟨some ⟨7⟩⟩ (.resolves ⟨false, 0, none⟩) Combined.initialState).state.migrationResult =
      some ⟨false, 0, none⟩ ∧
    (Combined.bootstrap ⟨"app", [⟨"001.sql", "CREATE TABLE t (x);"⟩], true, true⟩
        ⟨some ⟨7⟩⟩ (.resolves ⟨false, 0, none⟩) Combined.initialState).state.migrationsComplete = false ∧
    (Combined.bootstrap ⟨"app", [⟨"001.sql", "CREATE TABLE t (x);"⟩], true, true⟩
        ⟨some ⟨7⟩⟩ (.resolves ⟨false, 0, none⟩) Combined.initialState).ctx.migrationResult =
      some ⟨false, 0, none⟩ ∧
    (Combined.bootstrap ⟨"app", [⟨"001.sql", "CREATE TABLE t (x);"⟩], true, true⟩
        ⟨some ⟨7⟩⟩ (.resolves ⟨false, 0, none⟩) Combined.initialState).ctx.migrationsComplete = false ∧
    (Combined.bootstrap ⟨"app", [⟨"001.sql", "CREATE TABLE t (x);"⟩], true, true⟩
        ⟨some ⟨7⟩⟩ (.resolves ⟨false, 0, none⟩) Combined.initialState).err = none :=
  bootstrap_failure_without_error_field _ _ _ _ (by decide)

/-- C1 counterexample: in the DOM-rendering variant, when the collaborator
resolves `{success: false, error: {message: "boom"}}`, the failure callback
is invoked twice, not exactly once — the failure branch invokes it and then
throws, and that throw is caught by the same try's catch, which invokes it
again. -/
theorem dom_failure_callback_invoked_twice :
    errorCallCount
      (Dom.bootstrap ⟨"app", [⟨"001.sql", "CREATE TABLE t (x);"⟩], true, true⟩
        ⟨some ⟨7⟩⟩ (.resolves ⟨false, 0, some ⟨"boom"⟩⟩) Dom.initialState).2.1 = 2 ∧
    ¬ errorCallCount
      (Dom.bootstrap ⟨"app", [⟨"001.sql", "CREATE TABLE t (x);"⟩], true, true⟩
        ⟨some ⟨7⟩⟩ (.resolves ⟨false, 0, some ⟨"boom"⟩⟩) Dom.initialState).2.1 = 1 := by
  decide

/-- C1 amended: when the collaborator reports failure or rejects, the
failure callback receives an Error whose message is the reported message
(resp. the stringified rejection reason) and migrations-complete is false
afterwards.  In the delegating variant the callback is invoked exactly
once in both cases; in the DOM variant it is invoked once on a rejection
but twice on a reported failure. -/
theorem bootstrap_failure_callback
    (opts : CreateAppOptions) (db : D1Database) (m : String)
    (n : Nat) (reason : RejectReason)
    (stC stC2 : Combined.AppState) (stD stD2 : Dom.AppState)
    (hm : opts.migrations.length > 0)
    (hcb : opts.hasOnMigrationError = true) :
    ((Combined.bootstrap opts ⟨some db⟩ (.resolves ⟨false, n, some ⟨m⟩⟩) stC).trace =
        [Event.callMigrationError m] ∧
      (Combined.bootstrap opts ⟨some db⟩ (.resolves ⟨false, n, some ⟨m⟩⟩) stC).state.migrationsComplete = false) ∧
    ((Combined.bootstrap opts ⟨some db⟩ (.rejects reason) stC2).trace =
        [Event.consoleError, Event.callMigrationError reason.normalize] ∧
      (Combined.bootstrap opts ⟨some db⟩ (.rejects reason) stC2).state.migrationsComplete = false) ∧
    ((Dom.bootstrap opts ⟨some db⟩ (.rejects reason) stD).2.1 =
        [Event.callMigrationError reason.normalize] ∧
      (Dom.bootstrap opts ⟨some db⟩ (.rejects reason) stD).1.migrationsComplete = false) ∧
    ((Dom.bootstrap opts ⟨some db⟩ (.resolves ⟨false, n, some ⟨m⟩⟩) stD2).2.1 =
        [Event.callMigrationError m, Event.callMigrationError m] ∧
      (Dom.bootstrap opts ⟨some db⟩ (.resolves ⟨false, n, some ⟨m⟩⟩) stD2).1.migrationsComplete = false) := by
  simp [Combined.bootstrap, Dom.bootstrap, hm, hcb]

/-- C1 witness: concrete failing runs through both variants. -/
theorem bootstrap_failure_callback_witness :
    ((Combined.bootstrap ⟨"app", [⟨"001.sql", "CREATE TABLE t (x);"⟩], true, true⟩
        ⟨some ⟨7⟩⟩ (.resolves ⟨false, 0, some ⟨"boom"⟩⟩) Combined.initialState).trace =
        [Event.callMigrationError "boom"] ∧
      (Combined.bootstrap ⟨"app", [⟨"001.sql", "CREATE TABLE t (x);"⟩], true, true⟩
        ⟨some ⟨7⟩⟩ (.resolves ⟨false, 0, some ⟨"boom"⟩⟩) Combined.initialState).state.migrationsComplete = false) ∧
    ((Combined.bootstrap ⟨"app", [⟨"001.sql", "CREATE TABLE t (x);"⟩], true, true⟩
        ⟨some ⟨7⟩⟩ (.rejects (.nonError "oops")) Combined.initialState).trace =
        [Event.consoleError, Event.callMigrationError (RejectReason.nonError "oops").normalize] ∧
      (Combined.bootstrap ⟨"app", [⟨"001.sql", "CREATE TABLE t (x);"⟩], true, true⟩
        ⟨some ⟨7⟩⟩ (.rejects (.nonError "oops")) Combined.initialState).state.migrationsComplete = false) ∧
    ((Dom.bootstrap ⟨"app", [⟨"001.sql", "CREATE TABLE t (x);"⟩], true, true⟩
        ⟨some ⟨7⟩⟩ (.rejects (.nonError "oops")) Dom.initialState).2.1 =
        [Event.callMigrationError (RejectReason.nonError "oops").normalize] ∧
      (Dom.bootstrap ⟨"app", [⟨"001.sql", "CREATE TABLE t (x);"⟩], true, true⟩
        ⟨some ⟨7⟩⟩ (.rejects (.nonError "oops")) Dom.initialState).1.migrationsComplete = false) ∧
    ((Dom.bootstrap ⟨"app", [⟨"001.sql", "CREATE TABLE t (x);"⟩], true, true⟩
        ⟨some ⟨7⟩⟩ (.resolves ⟨false, 0, some ⟨"boom"⟩⟩) Dom.initialState).2.1 =
        [Event.callMigrationError "boom", Event.callMigrationError "boom"] ∧
      (Dom.bootstrap ⟨"app", [⟨"001.sql", "CREATE TABLE t (x);"⟩], true, true⟩
        ⟨some ⟨7⟩⟩ (.resolves ⟨false, 0, some ⟨"boom"⟩⟩) Dom.initialState).1.migrationsComplete = false) :=
  bootstrap_failure_callback _ _ _ _ _ _ _ _ _ (by decide) (by decide)

/-- C3: in the DOM-rendering variant, with a database handle and a
non-empty migration list, a reported failure or a rejection of the
collaborator makes bootstrap reject with the normalized error, aborting
the host's bootstrap sequence. -/
theorem dom_bootstrap_rejects_on_failure
    (opts : CreateAppOptions) (db : D1Database) (r : MigrationResult)
    (reason : RejectReason) (stD stD2 : Dom.AppState)
    (hm : opts.migrations.length > 0) (hr : r.success = false) :
    (Dom.bootstrap opts ⟨some db⟩ (.resolves r) stD).2.2 =
      some ⟨(r.error.map (·.message)).getD "Migration failed"⟩ ∧
    (Dom.bootstrap opts ⟨some db⟩ (.rejects reason) stD2).2.2 =
      some ⟨reason.normalize⟩ := by
  simp [Dom.bootstrap, hm, hr]

/-- C3 witness: concrete failing runs reject. -/
theorem dom_bootstrap_rejects_on_failure_witness :
    (Dom.bootstrap ⟨"app", [⟨"001.sql", "CREATE TABLE t (x);"⟩], true, true⟩
        ⟨some ⟨7⟩⟩ (.resolves ⟨false, 0, some ⟨"boom"⟩⟩) Dom.initialState).2.2 =
      some ⟨((some (MigErrorInfo.mk "boom")).map (·.message)).getD "Migration failed"⟩ ∧
    (Dom.bootstrap ⟨"app", [⟨"001.sql", "CREATE TABLE t (x);"⟩], true, true⟩
        ⟨some ⟨7⟩⟩ (.rejects (.errorInstance "db locked")) Dom.initialState).2.2 =
      some ⟨(RejectReason.errorInstance "db locked").normalize⟩ :=
  dom_bootstrap_rejects_on_failure _ _ _ _ _ _ (by decide) (by decide)

/-- Test lifecycle function for concrete runs: bumps the state and records
a probe event. -/
def probeFn (k : Nat) : Lifecycle.FnSem Nat := fun s => (s + 1, [Event.probe k], none)

/-- Test lifecycle function that rejects with the given message. -/
def failFn (m : String) : Lifecycle.FnSem Nat :=
  fun s => (s, [Event.probe 99], some ⟨m⟩)

/-- Concrete app-side test lifecycle. -/
def lcA : Lifecycle.AppLifecycle Nat :=
  ⟨.single (probeFn 1), .single (probeFn 2), .single (probeFn 3)⟩

/-- Concrete view-side test lifecycle; its mount phase is a list. -/
def lcB : Lifecycle.AppLifecycle Nat :=
  ⟨.single (probeFn 4), .list [probeFn 5, probeFn 6], .single (probeFn 7)⟩

/-- Concrete app-side test lifecycle whose bootstrap rejects. -/
def lcFail : Lifecycle.AppLifecycle Nat :=
  ⟨.single (failFn "bad"), .single (probeFn 2), .single (probeFn 3)⟩

/-- C2: the combined bootstrap runs A's bootstrap to completion first; if it
resolves, B's bootstrap runs on the resulting state and the combined
bootstrap resolves after both, with A's trace preceding B's; if A's
bootstrap rejects, the combined run equals A's run alone — B appears
nowhere in the result, so B's bootstrap is never invoked — and the
combined bootstrap rejects with A's error. -/
theorem combine_bootstrap_sequences
    {σ : Type} (a b : Lifecycle.AppLifecycle σ) (s s1 : σ)
    (t1 : List Event) (e1 : Option JsError)
    (h : Lifecycle.runLifecycleFn a.bootstrap s = (s1, t1, e1)) :
    (∀ e, e1 = some e →
        Lifecycle.runLifecycleFn (Lifecycle.combineLifecycles a b).bootstrap s =
          (s1, t1, some e)) ∧
    (e1 = none →
        Lifecycle.runLifecycleFn (Lifecycle.combineLifecycles a b).bootstrap s =
          ((Lifecycle.runLifecycleFn b.bootstrap s1).1,
            t1 ++ (Lifecycle.runLifecycleFn b.bootstrap s1).2.1,
            (Lifecycle.runLifecycleFn b.bootstrap s1).2.2)) := by
  have key : Lifecycle.runLifecycleFn (Lifecycle.combineLifecycles a b).bootstrap s =
      Lifecycle.combinedBootstrap a b s := rfl
  constructor
  · intro e he
    subst he
    rw [key]
    unfold Lifecycle.combinedBootstrap
    rw [h]
  · intro he
    subst he
    rw [key]
    unfold Lifecycle.combinedBootstrap
    rw [h]

/-- C2 witness: concrete combined bootstrap run where both sides resolve,
showing the ordered trace. -/
theorem combine_bootstrap_sequences_witness :
    Lifecycle.runLifecycleFn (Lifecycle.combineLifecycles lcA lcB).bootstrap 0 =
      (2, [Event.probe 1, Event.probe 4], none) :=
  (combine_bootstrap_sequences lcA lcB 0 1 [Event.probe 1] none rfl).2 rfl

/-- C7: the combined lifecycle's mount and unmount run exactly the view
lifecycle's corresponding phase (the app lifecycle does not occur in the
result, so its mount/unmount are never invoked), and a phase given as a
list of functions runs sequentially: the head is awaited to completion and
the tail then runs on the state it produced, traces concatenated in list
order. -/
theorem combine_mount_unmount_delegate
    {σ : Type} (a b : Lifecycle.AppLifecycle σ) (s s0 s1 : σ)
    (f : Lifecycle.FnSem σ) (fs : List (Lifecycle.FnSem σ)) (t1 : List Event)
    (hf : f s0 = (s1, t1, none)) :
    Lifecycle.runLifecycleFn (Lifecycle.combineLifecycles a b).mount s =
      Lifecycle.runLifecycleFn b.mount s ∧
    Lifecycle.runLifecycleFn (Lifecycle.combineLifecycles a b).unmount s =
      Lifecycle.runLifecycleFn b.unmount s ∧
    Lifecycle.runFns (f :: fs) s0 =
      ((Lifecycle.runFns fs s1).1, t1 ++ (Lifecycle.runFns fs s1).2.1,
        (Lifecycle.runFns fs s1).2.2) := by
  refine ⟨rfl, rfl, ?_⟩
  rcases hb : Lifecycle.runFns fs s1 with ⟨s2, t2, e2⟩
  simp [Lifecycle.runFns, hf, hb]

/-- C7 witness: concrete combined mount/unmount runs and a concrete
two-element list phase. -/
theorem combine_mount_unmount_delegate_witness :
    Lifecycle.runLifecycleFn (Lifecycle.combineLifecycles lcA lcB).mount 0 =
      Lifecycle.runLifecycleFn lcB.mount 0 ∧
    Lifecycle.runLifecycleFn (Lifecycle.combineLifecycles lcA lcB).unmount 0 =
      Lifecycle.runLifecycleFn lcB.unmount 0 ∧
    Lifecycle.runFns (probeFn 5 :: [probeFn 6]) 0 =
      ((Lifecycle.runFns [probeFn 6] 1).1,
        [Event.probe 5] ++ (Lifecycle.runFns [probeFn 6] 1).2.1,
        (Lifecycle.runFns [probeFn 6] 1).2.2) :=
  combine_mount_unmount_delegate lcA lcB 0 0 1 (probeFn 5) [probeFn 6]
    [Event.probe 5] rfl

/-- C8: unmount never rejects, and calling it a second time — with nothing
mounted any more — is a no-op that resolves: it leaves the state unchanged
and performs no DOM effects.  The delegating variant's unmount stub also
always resolves. -/
theorem unmount_idempotent (st : Dom.AppState) (stC : Combined.AppState) :
    (Dom.unmount st).2.2 = none ∧
    Dom.unmount (Dom.unmount st).1 = ((Dom.unmount st).1, [], none) ∧
    (Combined.unmountStub stC).2.2 = none := by
  rcases st with ⟨db, mc, mr, me, rr⟩
  cases me <;> cases rr <;> simp [Dom.unmount, Combined.unmountStub]

end EldrinReact
